import Mathlib

/-!
Shallow embedding of `custom_components/amazon_rekognition/image_processing.py`
(the `FaceRecognitionEntity` class).  Python floats are modelled as rationals,
Python dictionaries with optional keys as structures with `Option` fields, and
the side effects of one `process_image` cycle (event-bus firings, file writes,
log classification) as an explicit `CycleResult` record.  The remote call's
outcome (a successful `SearchFacesByImage` response, an
`InvalidParameterException`, or any other exception) is the cycle's input.
-/

/-- Fractional bounding box as carried inside `Face -> BoundingBox`
(`Top`, `Left`, `Width`, `Height`). -/
structure BoundingBox where
  top : ℚ
  left : ℚ
  width : ℚ
  height : ℚ
deriving DecidableEq

/-- The `Face` sub-dictionary of one entry of `response["FaceMatches"]`;
every key is read with `.get`, so every field may be absent. -/
structure AwsFace where
  externalImageId : Option String
  faceId : Option String
  boundingBox : Option BoundingBox
deriving DecidableEq

/-- One entry of `response["FaceMatches"]`:  `Similarity` and `Face` are both
read with `.get` and may be absent. -/
structure AwsFaceMatch where
  similarity : Option ℚ
  face : Option AwsFace
deriving DecidableEq

/-- A successful `SearchFacesByImage` response; `response.get("FaceMatches", [])`
yields the (possibly empty) ordered match list. -/
structure AwsResponse where
  faceMatches : List AwsFaceMatch
deriving DecidableEq

/-- Outcome of the remote `search_faces_by_image` call, as discriminated by the
`except` clauses of `process_image` (lines 292 and 309): success, an
`InvalidParameterException` carrying its message text, or any other exception
carrying its message text. -/
inductive ApiOutcome where
  | ok (resp : AwsResponse)
  | invalidParameter (msg : String)
  | otherError (msg : String)
deriving DecidableEq

/-- Round half to even, as Python's `round` resolves ties. -/
def roundHalfEven (q : ℚ) : ℤ :=
  let f : ℤ := ⌊q⌋
  let r : ℚ := q - f
  if r < 1/2 then f
  else if 1/2 < r then f + 1
  else if f % 2 = 0 then f else f + 1

/-- Python's `round(x, 2)`: round to 2 decimal places, ties to even. -/
def round2 (q : ℚ) : ℚ := (roundHalfEven (q * 100) : ℚ) / 100

/-- ASCII lower-casing of one character (`str.lower` restricted to the ASCII
range, which covers the fixed phrases tested by the code). -/
def lowerChar (c : Char) : Char :=
  if c.toNat ≥ 65 && c.toNat ≤ 90 then Char.ofNat (c.toNat + 32) else c

/-- Lower-case a character list. -/
def lowerList (l : List Char) : List Char := l.map lowerChar

/-- Python's `str.lower`. -/
def strLower (s : String) : String := ⟨lowerList s.data⟩

/-- Decides whether `needle` occurs as a contiguous sublist of the second
list. -/
def hasSub (needle : List Char) : List Char → Bool
  | [] => needle.isEmpty
  | c :: t => needle.isPrefixOf (c :: t) || hasSub needle t

/-- Python's substring test `needle in hay`. -/
def strContains (hay needle : String) : Bool := hasSub needle.data hay.data

/-- The test at lines 294-296: `str(e).lower()` contains
`"no faces in the image"` or `"there are no faces in the image"`. -/
def noFacesMessage (msg : String) : Bool :=
  let m := strLower msg
  strContains m "no faces in the image" ||
    strContains m "there are no faces in the image"

/-- One record of `self._matches`, as built at lines 277-284. -/
structure Match where
  external_image_id : String
  face_id : Option String
  similarity : ℚ
  bounding_box : Option BoundingBox
deriving DecidableEq

/-- Lines 271-284: read `Similarity` (default `0.0`), `Face` (default `{}`),
`ExternalImageId` (default `"unknown"`), `FaceId` and `BoundingBox` (no
default, i.e. possibly `None`), and build the match record with the
similarity rounded to 2 decimal places. -/
def buildMatch (m : AwsFaceMatch) : Match :=
  let similarity := m.similarity.getD 0
  let face_data := m.face.getD ⟨none, none, none⟩
  { external_image_id := face_data.externalImageId.getD "unknown"
    face_id := face_data.faceId
    similarity := round2 similarity
    bounding_box := face_data.boundingBox }

/-- A decoded PIL image.  `self._image` holds `None` or such a value; nothing
in this file of the repository ever decodes the incoming bytes or assigns
`self._image` at all, so in every reachable state the field is `None`. -/
inductive Img where
  | mk
deriving DecidableEq

/-- The mutable fields of `FaceRecognitionEntity` (its `__init__`, lines
187-218), plus the Home-Assistant-assigned `entity_id` / `object_id`. -/
structure Entity where
  entity_id : String
  object_id : String
  _collection_id : String
  _similarity_threshold : ℚ
  _matches : List Match
  _state : Option ℕ
  _last_detection : Option String
  _save_file_format : String
  _save_file_folder : Option String
  _save_timestamped_file : Bool
  _always_save_latest_file : Bool
  _show_boxes : Bool
  _image : Option Img
deriving DecidableEq

/-- The entity as `__init__` leaves it: `self._state = None`,
`self._matches = []`, `self._last_detection = None`, `self._image = None`. -/
def initEntity (eid oid coll : String) (thr : ℚ) (fmt : String)
    (folder : Option String) (tsf alwaysf boxes : Bool) : Entity :=
  { entity_id := eid
    object_id := oid
    _collection_id := coll
    _similarity_threshold := thr
    _matches := []
    _state := none
    _last_detection := none
    _save_file_format := fmt
    _save_file_folder := folder
    _save_timestamped_file := tsf
    _always_save_latest_file := alwaysf
    _show_boxes := boxes
    _image := none }

/-- Classification of one cycle, mirroring which branch of the
`try`/`except` chain ran. -/
inductive Classification where
  | success
  | softZero
  | hardError
deriving DecidableEq

/-- Log level of the message emitted by the branch that ran (lines 287-314):
`info` for the success and no-faces branches, `error` for the others. -/
inductive LogLevel where
  | info
  | error
deriving DecidableEq

/-- One `rekognition.face_recognised` event payload: the match record copied,
plus `entity_id` and `timestamp` (lines 326-329). -/
structure Event where
  external_image_id : String
  face_id : Option String
  similarity : ℚ
  bounding_box : Option BoundingBox
  entity_id : String
  timestamp : String
deriving DecidableEq

/-- Build the event payload for one match (lines 326-328): copy the match
dictionary and add `entity_id` and `timestamp`. -/
def eventOf (eid now : String) (m : Match) : Event :=
  { external_image_id := m.external_image_id
    face_id := m.face_id
    similarity := m.similarity
    bounding_box := m.bounding_box
    entity_id := eid
    timestamp := now }

/-- Lines 269-314, the `try`/`except` chain: the fresh `self._matches` list,
the fresh `self._state`, and the branch classification.
Success (lines 269-285): map every `FaceMatches` entry through `buildMatch`
and set the state to the length.  `InvalidParameterException` whose message
passes the no-faces test (lines 292-301): empty matches, state 0, info log.
Any other `InvalidParameterException` (lines 302-308) and any other
exception (lines 309-314): empty matches, state 0, error log. -/
def interpretOutcome : ApiOutcome → List Match × ℕ × Classification
  | .ok resp =>
      let ms := resp.faceMatches.map buildMatch
      (ms, ms.length, .success)
  | .invalidParameter msg =>
      if noFacesMessage msg then ([], 0, .softZero) else ([], 0, .hardError)
  | .otherError _ => ([], 0, .hardError)

/-- The log level used by the branch that handled the outcome: the success
and no-faces branches log at info level (lines 287-290 and 297-299), the
other two handlers at error level (lines 304-306 and 310-312). -/
def levelOf : Classification → LogLevel
  | .success => .info
  | .softZero => .info
  | .hardError => .error

/-- Which file writes `img.save` was called on, whether an exception escaped
the save helper, and which bounding boxes were drawn. -/
structure SaveTrace where
  attempted : List String
  raised : Bool
  boxesDrawn : List BoundingBox
deriving DecidableEq

/-- Injected behaviour of the two `img.save` calls (does each raise?). -/
structure SaveEnv where
  latestWriteFails : Bool
  timestampedWriteFails : Bool
deriving DecidableEq

/-- Line 374-376: `f"{self.object_id}_latest.{self._save_file_format}"`. -/
def latestFilename (e : Entity) : String :=
  e.object_id ++ "_latest." ++ e._save_file_format

/-- Lines 381-384: `f"{self.object_id}_{ts}.{self._save_file_format}"`. -/
def timestampedFilename (e : Entity) (ts : String) : String :=
  e.object_id ++ "_" ++ ts ++ "." ++ e._save_file_format

/-- `_save_annotated_image` (lines 345-386).  Returns immediately when
`self._image` is `None` (line 347).  Otherwise draws a box for every match
that carries one, when `show_boxes` is set (lines 353-372); then calls
`img.save` on the "latest" name (line 377) — if that call raises, the
exception propagates and nothing further is attempted — and, when matches
exist and timestamped saving is on (line 380), calls `img.save` on the
timestamped name (lines 381-385). -/
def saveAnnotatedImage (e : Entity) (saveTs : String) (env : SaveEnv) :
    SaveTrace :=
  match e._image with
  | none => { attempted := [], raised := false, boxesDrawn := [] }
  | some _ =>
    let boxes :=
      if e._show_boxes then e._matches.filterMap (fun m => m.bounding_box)
      else []
    let f1 := latestFilename e
    if env.latestWriteFails then
      { attempted := [f1], raised := true, boxesDrawn := boxes }
    else if !e._matches.isEmpty && e._save_timestamped_file then
      { attempted := [f1, timestampedFilename e saveTs]
        raised := env.timestampedWriteFails
        boxesDrawn := boxes }
    else
      { attempted := [f1], raised := false, boxesDrawn := boxes }

/-- Everything observable about one `process_image` cycle. -/
structure CycleResult where
  entity : Entity
  events : List Event
  classification : Classification
  logLevel : LogLevel
  remoteCalled : Bool
  saveTriggered : Bool
  save : SaveTrace
deriving DecidableEq

/-- `process_image` (lines 256-341) on one frame.  `api` is the outcome of
the `search_faces_by_image` call (the first statement executed: no decode
step precedes it, so the remote call is always made); `now` is the value of
`dt_util.now().isoformat()` at line 323; `saveTs` is the formatted value of
the separate `dt_util.now()` call at line 381; `env` injects the behaviour
of the file writes.  After the `try`/`except` chain assigns the fresh
matches and state, events are fired (lines 322-330) iff the state is
positive — one per match, in order, all carrying the single `now` timestamp
also stored in `self._last_detection` — and the save helper runs (lines
335-338) iff a folder is configured and matches exist or the always-save
flag is set. -/
def processImage (e : Entity) (api : ApiOutcome) (now saveTs : String)
    (env : SaveEnv) : CycleResult :=
  let r := interpretOutcome api
  let ms := r.1
  let st := r.2.1
  let cls := r.2.2
  let e1 := { e with _matches := ms, _state := some st }
  let fired := if 0 < st then ms.map (eventOf e.entity_id now) else []
  let e2 := if 0 < st then { e1 with _last_detection := some now } else e1
  let doSave :=
    e._save_file_folder.isSome && (!ms.isEmpty || e._always_save_latest_file)
  let trace :=
    if doSave then saveAnnotatedImage e2 saveTs env
    else { attempted := [], raised := false, boxesDrawn := [] }
  { entity := e2
    events := fired
    classification := cls
    logLevel := levelOf cls
    remoteCalled := true
    saveTriggered := doSave
    save := trace }

/-- Is the outcome a failure (either `except` branch)? -/
def isFailureOutcome : ApiOutcome → Bool
  | .ok _ => false
  | .invalidParameter _ => true
  | .otherError _ => true

/-- Does the outcome take the no-faces branch (lines 295-301):
an `InvalidParameterException` whose message passes the phrase test? -/
def isSoftZeroOutcome : ApiOutcome → Bool
  | .invalidParameter msg => noFacesMessage msg
  | _ => false

/-- A concrete entity as configured in the module docstring example, fresh
from `__init__` (so `self._image = None`), with a save folder and the
always-save flag set. -/
def demoEntity : Entity :=
  initEntity "image_processing.front_door" "front_door" "homeassistant_faces"
    90 "jpg" (some "/config/www/rekognition") false true true

/-- A concrete match record, as the success path would store it. -/
def demoMatch : Match :=
  { external_image_id := "alice"
    face_id := some "f-1"
    similarity := 952/10
    bounding_box := some ⟨1/10, 2/10, 3/10, 4/10⟩ }

/-- A hypothetical entity state in which a decoded image IS available and a
match was stored, used to exercise `_save_annotated_image` on its own. -/
def loadedEntity : Entity :=
  { demoEntity with
      _matches := [demoMatch]
      _state := some 1
      _save_timestamped_file := true
      _image := some Img.mk }

lemma round2_zero : round2 0 = 0 := by
  simp [round2, roundHalfEven]

lemma interpretOutcome_state_length (api : ApiOutcome) :
    (interpretOutcome api).2.1 = (interpretOutcome api).1.length := by
  cases api with
  | ok resp => rfl
  | invalidParameter msg =>
      by_cases h : noFacesMessage msg = true <;> simp [interpretOutcome, h]
  | otherError msg => rfl

lemma processImage_matches (e : Entity) (api : ApiOutcome)
    (now saveTs : String) (env : SaveEnv) :
    (processImage e api now saveTs env).entity._matches =
      (interpretOutcome api).1 := by
  dsimp only [processImage]
  split <;> rfl

lemma processImage_state (e : Entity) (api : ApiOutcome)
    (now saveTs : String) (env : SaveEnv) :
    (processImage e api now saveTs env).entity._state =
      some (interpretOutcome api).2.1 := by
  dsimp only [processImage]
  split <;> rfl

lemma processImage_events (e : Entity) (api : ApiOutcome)
    (now saveTs : String) (env : SaveEnv) :
    (processImage e api now saveTs env).events =
      (processImage e api now saveTs env).entity._matches.map
        (eventOf e.entity_id now) := by
  rw [processImage_matches]
  dsimp only [processImage]
  rw [interpretOutcome_state_length]
  split
  · rfl
  · next h =>
      have hnil : (interpretOutcome api).1 = [] :=
        List.eq_nil_of_length_eq_zero (by omega)
      rw [hnil]
      rfl

lemma processImage_image (e : Entity) (api : ApiOutcome)
    (now saveTs : String) (env : SaveEnv) :
    (processImage e api now saveTs env).entity._image = e._image := by
  dsimp only [processImage]
  split <;> rfl

lemma processImage_last_detection (e : Entity) (api : ApiOutcome)
    (now saveTs : String) (env : SaveEnv) :
    (processImage e api now saveTs env).entity._last_detection =
      if 0 < (interpretOutcome api).1.length then some now
      else e._last_detection := by
  dsimp only [processImage]
  rw [interpretOutcome_state_length]
  split <;> next h => simp [h]

lemma saveAnnotatedImage_no_image (e : Entity) (saveTs : String)
    (env : SaveEnv) (h : e._image = none) :
    saveAnnotatedImage e saveTs env =
      { attempted := [], raised := false, boxesDrawn := [] } := by
  unfold saveAnnotatedImage
  rw [h]

lemma processImage_classification (e : Entity) (api : ApiOutcome)
    (now saveTs : String) (env : SaveEnv) :
    (processImage e api now saveTs env).classification =
      (interpretOutcome api).2.2 := rfl

lemma processImage_logLevel (e : Entity) (api : ApiOutcome)
    (now saveTs : String) (env : SaveEnv) :
    (processImage e api now saveTs env).logLevel =
      levelOf (interpretOutcome api).2.2 := rfl

lemma processImage_saveTriggered (e : Entity) (api : ApiOutcome)
    (now saveTs : String) (env : SaveEnv) :
    (processImage e api now saveTs env).saveTriggered =
      (e._save_file_folder.isSome &&
        (!(interpretOutcome api).1.isEmpty || e._always_save_latest_file)) :=
  rfl

lemma processImage_save_no_image (e : Entity) (api : ApiOutcome)
    (now saveTs : String) (env : SaveEnv) (himg : e._image = none) :
    (processImage e api now saveTs env).save =
      { attempted := [], raised := false, boxesDrawn := [] } := by
  dsimp only [processImage]
  split
  · apply saveAnnotatedImage_no_image
    split <;> exact himg
  · rfl

/-- C1: on a successful response with N matches, the interpreter builds one
match record per returned entry, passed through in the order the service
returned them (no re-sorting, no deduplication), with the similarity rounded
to 2 decimal places, and sets the reported count to the length N of the
match list. -/
theorem c1_success_pass_through (e : Entity) (resp : AwsResponse)
    (now saveTs : String) (env : SaveEnv) :
    (processImage e (.ok resp) now saveTs env).entity._matches =
      resp.faceMatches.map buildMatch ∧
    (processImage e (.ok resp) now saveTs env).entity._matches.length =
      resp.faceMatches.length ∧
    (processImage e (.ok resp) now saveTs env).entity._state =
      some resp.faceMatches.length ∧
    (∀ i : ℕ,
      (processImage e (.ok resp) now saveTs env).entity._matches[i]? =
        (resp.faceMatches[i]?).map buildMatch) ∧
    (∀ m : AwsFaceMatch,
      (buildMatch m).similarity = round2 (m.similarity.getD 0)) := by
  have hm := processImage_matches e (.ok resp) now saveTs env
  have hs := processImage_state e (.ok resp) now saveTs env
  refine ⟨?_, ?_, ?_, ?_, ?_⟩
  · rw [hm]; rfl
  · rw [hm]; simp [interpretOutcome]
  · rw [hs]; simp [interpretOutcome]
  · intro i
    rw [hm]
    simp [interpretOutcome]
  · intro m
    rfl

/-- C2: the fired `rekognition.face_recognised` events are exactly one per
stored match, in match order, each carrying the match's fields plus the
source `entity_id` and the single per-cycle timestamp (so all events of one
frame carry an identical timestamp); a cycle whose match list is empty (for
any reason) fires no event. -/
theorem c2_one_event_per_match (e : Entity) (api : ApiOutcome)
    (now saveTs : String) (env : SaveEnv) :
    (processImage e api now saveTs env).events =
      (processImage e api now saveTs env).entity._matches.map
        (eventOf e.entity_id now) ∧
    (processImage e api now saveTs env).events.length =
      (processImage e api now saveTs env).entity._matches.length ∧
    (∀ i : ℕ,
      (processImage e api now saveTs env).events[i]? =
        ((processImage e api now saveTs env).entity._matches[i]?).map
          (eventOf e.entity_id now)) ∧
    ((processImage e api now saveTs env).events.all
      (fun ev => ev.timestamp == now && ev.entity_id == e.entity_id)) = true ∧
    (processImage e api now saveTs env).events.isEmpty =
      (processImage e api now saveTs env).entity._matches.isEmpty := by
  have he := processImage_events e api now saveTs env
  refine ⟨he, ?_, ?_, ?_, ?_⟩
  · rw [he]; simp
  · intro i; rw [he]; simp
  · rw [he]
    simp [List.all_eq_true, eventOf]
  · rw [he]
    cases (processImage e api now saveTs env).entity._matches <;> rfl

/-- C8: each invocation fully replaces the prior result: the fresh match list
and match count depend only on the remote outcome, never on the entity's
previous matches or state, so nothing survives or accumulates across
cycles; and both fields are (re)assigned to defined values on every path. -/
theorem c8_result_replaces_prior (e1 e2 : Entity) (api : ApiOutcome)
    (now saveTs : String) (env : SaveEnv) :
    (processImage e1 api now saveTs env).entity._matches =
      (processImage e2 api now saveTs env).entity._matches ∧
    (processImage e1 api now saveTs env).entity._state =
      (processImage e2 api now saveTs env).entity._state ∧
    (processImage e1 api now saveTs env).entity._state =
      some (processImage e1 api now saveTs env).entity._matches.length := by
  refine ⟨?_, ?_, ?_⟩
  · rw [processImage_matches, processImage_matches]
  · rw [processImage_state, processImage_state]
  · rw [processImage_state, processImage_matches,
      interpretOutcome_state_length]

/-- C9: the response interpreter is total over arbitrary response shapes:
a match entry with `Similarity`, `Face`, `ExternalImageId`, `FaceId` or
`BoundingBox` absent still yields a record, with the external image id
defaulting to "unknown", the similarity defaulting to 0.0 (then rounded,
giving 0), and the face id and bounding box possibly `None`; every entry of
every successful response yields exactly one record. -/
theorem c9_interpreter_total_defaults :
    (∀ face : Option AwsFace, (buildMatch ⟨none, face⟩).similarity = 0) ∧
    (∀ sim : Option ℚ,
      (buildMatch ⟨sim, none⟩).external_image_id = "unknown" ∧
      (buildMatch ⟨sim, none⟩).face_id = none ∧
      (buildMatch ⟨sim, none⟩).bounding_box = none) ∧
    (∀ (sim : Option ℚ) (fid : Option String) (bb : Option BoundingBox),
      (buildMatch ⟨sim, some ⟨none, fid, bb⟩⟩).external_image_id =
        "unknown") ∧
    (∀ (e : Entity) (resp : AwsResponse) (now saveTs : String)
        (env : SaveEnv),
      (processImage e (.ok resp) now saveTs env).entity._matches.length =
        resp.faceMatches.length) := by
  refine ⟨?_, ?_, ?_, ?_⟩
  · intro face
    show round2 0 = 0
    exact round2_zero
  · intro sim
    exact ⟨rfl, rfl, rfl⟩
  · intro sim fid bb
    rfl
  · intro e resp now saveTs env
    rw [processImage_matches]
    simp [interpretOutcome]

/-- C10: the last-recognition timestamp is set to the per-cycle timestamp
exactly on cycles whose fresh match list is non-empty; on every cycle ending
with zero matches (genuine zero, soft-zero or hard error) it keeps its value
from before the cycle. -/
theorem c10_last_detection_only_on_matches (e : Entity) (api : ApiOutcome)
    (now saveTs : String) (env : SaveEnv) :
    (processImage e api now saveTs env).entity._last_detection =
      (if (processImage e api now saveTs env).entity._matches.isEmpty then
        e._last_detection
      else some now) := by
  rw [processImage_last_detection, processImage_matches]
  rcases h : (interpretOutcome api).1 with _ | ⟨m, ms⟩ <;> simp

/-- C3 counterexample: the claim quantifies over EVERY remote-call failure
whose error text contains "no faces in the image", but the code runs the
phrase test only inside the `InvalidParameterException` handler; a generic
exception carrying exactly that text falls into the generic handler (lines
309-314) and is classified as a hard error with an error-level log, not as
an informational soft-zero. -/
theorem c3_counterexample :
    noFacesMessage "no faces in the image" = true ∧
    (processImage demoEntity (.otherError "no faces in the image")
      "2025-01-02T03:04:05" "2025-01-02_03.04.05"
      ⟨false, false⟩).classification = Classification.hardError ∧
    (processImage demoEntity (.otherError "no faces in the image")
      "2025-01-02T03:04:05" "2025-01-02_03.04.05"
      ⟨false, false⟩).logLevel = LogLevel.error :=
  ⟨by decide, rfl, rfl⟩

/-- C3 amended: for every `InvalidParameterException` failure whose error
text contains "no faces in the image" (case-insensitive substring), the
cycle is a soft-zero: match count 0, empty match list, no event fired, an
informational log classification — distinct from the error-level
classification of any other `InvalidParameterException`. -/
theorem c3_soft_zero (e : Entity) (msg : String) (now saveTs : String)
    (env : SaveEnv) (h : noFacesMessage msg = true) :
    (processImage e (.invalidParameter msg) now saveTs env).classification =
      Classification.softZero ∧
    (processImage e (.invalidParameter msg) now saveTs env).logLevel =
      LogLevel.info ∧
    (processImage e (.invalidParameter msg) now saveTs env).entity._matches =
      [] ∧
    (processImage e (.invalidParameter msg) now saveTs env).entity._state =
      some 0 ∧
    (processImage e (.invalidParameter msg) now saveTs env).events = [] ∧
    (∀ msg2 : String, noFacesMessage msg2 = false →
      (processImage e (.invalidParameter msg2) now saveTs env).logLevel =
        LogLevel.error ∧
      (processImage e (.invalidParameter msg2) now saveTs
        env).classification = Classification.hardError) := by
  have hinterp : interpretOutcome (.invalidParameter msg) =
      ([], 0, .softZero) := by
    simp [interpretOutcome, h]
  refine ⟨?_, ?_, ?_, ?_, ?_, ?_⟩
  · rw [processImage_classification, hinterp]
  · rw [processImage_logLevel, hinterp]; rfl
  · rw [processImage_matches, hinterp]
  · rw [processImage_state, hinterp]
  · rw [processImage_events, processImage_matches, hinterp]; rfl
  · intro msg2 h2
    have hinterp2 : interpretOutcome (.invalidParameter msg2) =
        ([], 0, .hardError) := by
      simp [interpretOutcome, h2]
    exact ⟨by rw [processImage_logLevel, hinterp2]; rfl,
      by rw [processImage_classification, hinterp2]⟩

/-- Witness for `c3_soft_zero` at a concrete message. -/
theorem c3_soft_zero_witness :
    (processImage demoEntity
      (.invalidParameter
        "There are no faces in the image. Correct the image and try again.")
      "2025-01-02T03:04:05" "2025-01-02_03.04.05"
      ⟨false, false⟩).classification = Classification.softZero :=
  (c3_soft_zero demoEntity
    "There are no faces in the image. Correct the image and try again."
    "2025-01-02T03:04:05" "2025-01-02_03.04.05" ⟨false, false⟩
    (by decide)).1

/-- C4: every remote-call failure other than the soft-zero case — any other
`InvalidParameterException` (validation), or any other exception (network,
auth, anything) — is a hard error: match count 0, empty match list, no
event, error-level log, nothing raised to the caller, and the cycle still
reaches the save stage, which is triggered exactly when a folder is
configured and the always-save flag is set (the match list being empty). -/
theorem c4_hard_error (e : Entity) (api : ApiOutcome) (now saveTs : String)
    (env : SaveEnv) (hfail : isFailureOutcome api = true)
    (hsoft : isSoftZeroOutcome api = false) (himg : e._image = none) :
    (processImage e api now saveTs env).classification =
      Classification.hardError ∧
    (processImage e api now saveTs env).logLevel = LogLevel.error ∧
    (processImage e api now saveTs env).entity._matches = [] ∧
    (processImage e api now saveTs env).entity._state = some 0 ∧
    (processImage e api now saveTs env).events = [] ∧
    (processImage e api now saveTs env).save.raised = false ∧
    (processImage e api now saveTs env).saveTriggered =
      (e._save_file_folder.isSome && e._always_save_latest_file) := by
  have hinterp : interpretOutcome api = ([], 0, .hardError) := by
    cases api with
    | ok resp => simp [isFailureOutcome] at hfail
    | invalidParameter msg =>
        have hm : noFacesMessage msg = false := by
          simpa [isSoftZeroOutcome] using hsoft
        simp [interpretOutcome, hm]
    | otherError msg => rfl
  refine ⟨?_, ?_, ?_, ?_, ?_, ?_, ?_⟩
  · rw [processImage_classification, hinterp]
  · rw [processImage_logLevel, hinterp]; rfl
  · rw [processImage_matches, hinterp]
  · rw [processImage_state, hinterp]
  · rw [processImage_events, processImage_matches, hinterp]; rfl
  · rw [processImage_save_no_image e api now saveTs env himg]
  · rw [processImage_saveTriggered, hinterp]
    simp

/-- Witness for `c4_hard_error` at a concrete network-style failure. -/
theorem c4_hard_error_witness :
    (processImage demoEntity
      (.otherError "Could not connect to the endpoint URL")
      "2025-01-02T03:04:05" "2025-01-02_03.04.05"
      ⟨false, false⟩).classification = Classification.hardError :=
  (c4_hard_error demoEntity
    (.otherError "Could not connect to the endpoint URL")
    "2025-01-02T03:04:05" "2025-01-02_03.04.05" ⟨false, false⟩
    rfl rfl rfl).1

/-- C5 (code evidence): `process_image` contains no decode step at all.  The
remote call is the first statement executed on every invocation, for every
payload; `self._image` is `None` after `__init__` and is never assigned by
any path of `process_image`, so no cycle ever decodes the frame or
short-circuits on a decode failure. -/
theorem c5_no_decode_step (e : Entity) (api : ApiOutcome)
    (now saveTs : String) (env : SaveEnv) :
    (processImage e api now saveTs env).remoteCalled = true ∧
    (processImage e api now saveTs env).entity._image = e._image ∧
    (∀ (eid oid coll : String) (thr : ℚ) (fmt : String)
        (folder : Option String) (tsf alwaysf boxes : Bool),
      (initEntity eid oid coll thr fmt folder tsf alwaysf boxes)._image =
        none) := by
  refine ⟨rfl, processImage_image e api now saveTs env, ?_⟩
  intro eid oid coll thr fmt folder tsf alwaysf boxes
  rfl

/-- C6 (code evidence): with a save folder configured and the always-save
flag set, a zero-match cycle does trigger the save stage, yet no file write
is ever attempted — `_save_annotated_image` returns at its `self._image`
guard because the image field is never assigned; indeed on an entity fresh
from `__init__` no outcome whatsoever leads to a file write. -/
theorem c6_latest_never_written :
    (processImage demoEntity (.ok ⟨[]⟩) "2025-01-02T03:04:05"
      "2025-01-02_03.04.05" ⟨false, false⟩).saveTriggered = true ∧
    (processImage demoEntity (.ok ⟨[]⟩) "2025-01-02T03:04:05"
      "2025-01-02_03.04.05" ⟨false, false⟩).save.attempted = [] ∧
    (∀ (api : ApiOutcome) (now saveTs : String) (env : SaveEnv),
      (processImage demoEntity api now saveTs env).save.attempted = [] ∧
      (processImage demoEntity api now saveTs env).save.raised = false) := by
  refine ⟨rfl, rfl, ?_⟩
  intro api now saveTs env
  rw [processImage_save_no_image demoEntity api now saveTs env rfl]
  exact ⟨rfl, rfl⟩

/-- C7 counterexample: the two file writes are not independent.  On a state
where a decoded image and one match are present, with timestamped saving
enabled, a failing "latest" write raises out of the save helper and the
timestamped file is never attempted; with both writes succeeding the same
state attempts both files.  (The save helper also performs no directory
creation anywhere: the configuration schema `cv.isdir` requires the folder
to already exist.) -/
theorem c7_counterexample :
    loadedEntity._matches.isEmpty = false ∧
    loadedEntity._save_timestamped_file = true ∧
    (saveAnnotatedImage loadedEntity "2025-01-02_03.04.05"
      ⟨true, false⟩).raised = true ∧
    (saveAnnotatedImage loadedEntity "2025-01-02_03.04.05"
      ⟨true, false⟩).attempted = ["front_door_latest.jpg"] ∧
    (saveAnnotatedImage loadedEntity "2025-01-02_03.04.05"
      ⟨false, false⟩).attempted =
      ["front_door_latest.jpg", "front_door_2025-01-02_03.04.05.jpg"] := by
  refine ⟨rfl, rfl, rfl, by decide, by decide⟩

/-- C7 amended: the save stage creates no directory (the configuration layer
requires an existing one), and the two writes are sequential and unguarded:
whenever a decoded image is present and the "latest" write fails, the
exception escapes the save helper and the timestamped write is never
attempted.  Event emission, having completed before the save stage, is
unaffected by write failures. -/
theorem c7_latest_failure_blocks_timestamped (e : Entity) (i : Img)
    (saveTs : String) (env : SaveEnv) (himg : e._image = some i)
    (hfail : env.latestWriteFails = true) :
    (saveAnnotatedImage e saveTs env).attempted = [latestFilename e] ∧
    (saveAnnotatedImage e saveTs env).raised = true ∧
    (∀ (e0 : Entity) (api : ApiOutcome) (now saveTs0 : String)
        (env1 env2 : SaveEnv),
      (processImage e0 api now saveTs0 env1).events =
        (processImage e0 api now saveTs0 env2).events) := by
  refine ⟨?_, ?_, ?_⟩
  · simp [saveAnnotatedImage, himg, hfail]
  · simp [saveAnnotatedImage, himg, hfail]
  · intro e0 api now saveTs0 env1 env2
    rw [processImage_events, processImage_events,
      processImage_matches, processImage_matches]

/-- Witness for `c7_latest_failure_blocks_timestamped` at a concrete state. -/
theorem c7_latest_failure_blocks_timestamped_witness :
    (saveAnnotatedImage loadedEntity "2025-01-02_03.04.05"
      ⟨true, false⟩).attempted = [latestFilename loadedEntity] :=
  (c7_latest_failure_blocks_timestamped loadedEntity Img.mk
    "2025-01-02_03.04.05" ⟨true, false⟩ rfl rfl).1
